import Mathlib

/-!
Verification of the flask-restless view layer (`src/flask_restless/views.py`)
against its natural-language specification.

The Python code is shallowly embedded: the database session becomes explicit
state passing over a `DB` value, JSON request bodies become association lists
of `BodyVal`, unhandled Python exceptions become the `Outcome.fault`
constructor, and HTTP responses become `Outcome.resp`.  External collaborators
(the `dateutil` parser, the SQL aggregate engine, the authentication predicate
and the validation layer) are parameters of the embedding.  The repository
ships only `views.py`; the `search` module (`search`, `create_query`) is
modelled from the spec where needed, marked as such in doc comments.
-/

namespace FlaskRestless

/-- A scalar JSON/Python value as it appears in request bodies and columns. -/
inductive Value
  | vstr (s : String)
  | vint (n : Int)
  | vbool (b : Bool)
  | vnull
  | vdate (tag : String)
  deriving DecidableEq, Repr

/-- One entry of a relation-edit `add`/`remove` list: a JSON dictionary that
may carry an `id` key (`eid`), other attribute keys (`attrs`), and the
`__delete__` flag (`del`), mirroring what `_add_to_relation` /
`_remove_from_relation` read from each dictionary. -/
structure Entry where
  eid : Option Nat
  attrs : List (String × Value)
  del : Bool
  deriving DecidableEq, Repr

/-- The value of a relation key in a patch body: `{"add": [...], "remove": [...]}`
(each of the two keys optional, defaulting to the empty list as in
`params[columnname].get('add', [])`). -/
structure RelEdit where
  add : List Entry := []
  remove : List Entry := []
  deriving DecidableEq, Repr

/-- A value in a decoded JSON request body: a scalar, a relation-edit object
(patch bodies), or a list of attribute dictionaries (post bodies). -/
inductive BodyVal
  | scalar (v : Value)
  | rel (e : RelEdit)
  | rlist (entries : List (List (String × Value)))
  deriving DecidableEq, Repr

/-- A decoded JSON request body: an association list from key to value
(Python `dict`; keys are unique in an actual JSON object). -/
abbrev RequestData := List (String × BodyVal)

/-- An instance of the main model: its id, its plain columns, and the contents
of each of its relations.  A relation holds a list of references to related
instances; `none` models the Python `None` object, which the code can append
to a relation list (`_add_to_relation` appends the result of `get_by` without
checking it). -/
structure Inst where
  id : Nat
  fields : List (String × BodyVal)
  rels : List (String × List (Option Nat))
  deriving DecidableEq, Repr

/-- An instance of the related model (the target of a one-to-many relation). -/
structure SubInst where
  id : Nat
  fields : List (String × Value)
  deriving DecidableEq, Repr

/-- The database state: main-model rows, related-model rows, and the id
sequences used when new rows are created. -/
structure DB where
  insts : List Inst
  subinsts : List SubInst
  nextInstId : Nat
  nextSubId : Nat
  deriving DecidableEq, Repr

/-- The per-request transactional session: the durable state (`committed`),
the state including staged but uncommitted changes (`staged`), and the field
writes staged in the current transaction, which the validation layer inspects
at commit time (`pending`). -/
structure Session where
  committed : DB
  staged : DB
  pending : List (String × BodyVal)
  deriving DecidableEq, Repr

/-- A fresh session at the start of a request: nothing staged. -/
def initSession (db : DB) : Session := ⟨db, db, []⟩

/-- Metadata reflected from the model class: `get_columns`, `get_relations`,
and `is_date_or_datetime`. -/
structure ModelMeta where
  columns : List String
  relations : List String
  dateFields : List String
  deriving DecidableEq, Repr

/-- HTTP methods handled by the `API` view. -/
inductive Method
  | GET | POST | PATCH | DELETE
  deriving DecidableEq, Repr

/-- The configuration of one `API` view instance: the model metadata, the
`authentication_required_for` set, the `authentication_function` (a predicate
invoked with no arguments, modelled as `Unit → Bool`), the validation layer
(field name and written value to optional error message, applied to the
staged writes at commit), and the external `dateutil` parser. -/
structure ApiConfig where
  meta : ModelMeta
  authRequiredFor : List Method
  authFn : Unit → Bool
  validators : String → BodyVal → Option String
  parseDatetime : BodyVal → BodyVal

/-- Response bodies produced by the views. -/
inductive RespBody
  | empty
  | message (s : String)
  | obj (i : Inst)
  | objects (l : List Inst)
  | numModified (n : Nat)
  | created (id : Nat)
  | validationErrors (errs : List (String × String))
  | funcResults (l : List (String × Value))
  deriving DecidableEq, Repr

/-- The outcome of a request: an HTTP response with a status code, or an
unhandled Python exception propagating out of the view (`fault`). -/
inductive Outcome
  | resp (status : Nat) (body : RespBody)
  | fault (msg : String)
  deriving DecidableEq, Repr

/-- Events recorded in request order: the authentication check, request
decoding, database reads, relation edits, the batch update (with the exact
parameter dictionary it receives), commit and rollback. -/
inductive Event
  | authCheck
  | decode
  | dbRead
  | relEditEv (relname : String)
  | updateEv (params : List (String × BodyVal))
  | commitEv
  | rollbackEv
  deriving DecidableEq, Repr

/-! ### Elementary database operations (elixir `get_by` / `get_or_create`) -/

/-- `Model.get_by(id=i)` on the main model: the first row with that id, or
`None`. -/
def getById (insts : List Inst) (i : Nat) : Option Inst :=
  insts.find? (fun x => x.id == i)

/-- `submodel.get_by(id=i)`: the first related row with that id, or `None`. -/
def getSubById (subs : List SubInst) (i : Nat) : Option SubInst :=
  subs.find? (fun x => x.id == i)

/-- Does a related row match every attribute of the given attribute set? -/
def matchesAttrs (s : SubInst) (attrs : List (String × Value)) : Bool :=
  attrs.all (fun kv => s.fields.lookup kv.1 == some kv.2)

/-- `submodel.get_by(**attrs)`: the first related row matching all given
attributes, or `None`. -/
def getSubBy (subs : List SubInst) (attrs : List (String × Value)) : Option SubInst :=
  subs.find? (fun s => matchesAttrs s attrs)

/-- `submodel.get_or_create(**attrs)`: reuse the first matching related row,
else create a new one with the next id of the sequence. -/
def getOrCreate (db : DB) (attrs : List (String × Value)) : DB × Nat :=
  match getSubBy db.subinsts attrs with
  | some s => (db, s.id)
  | none =>
      ({ db with subinsts := db.subinsts ++ [⟨db.nextSubId, attrs⟩],
                 nextSubId := db.nextSubId + 1 },
       db.nextSubId)

/-- The contents of a named relation on an instance (empty if never touched). -/
def getRel (inst : Inst) (relname : String) : List (Option Nat) :=
  (inst.rels.lookup relname).getD []

/-- Replace the contents of a named relation on an instance. -/
def setRel (inst : Inst) (relname : String) (l : List (Option Nat)) : Inst :=
  { inst with rels := (relname, l) :: inst.rels.filter (fun kv => !(kv.1 == relname)) }

/-- `getattr(instance, relationname).append(ref)`. -/
def appendRel (inst : Inst) (relname : String) (ref : Option Nat) : Inst :=
  setRel inst relname (getRel inst relname ++ [ref])

/-- Python `list.remove(x)`: drop the first element equal to `x`, or `none`
for the `ValueError` raised when no element is equal. -/
def listRemove (xs : List (Option Nat)) (x : Option Nat) : Option (List (Option Nat)) :=
  match xs with
  | [] => none
  | y :: ys => if y = x then some ys else (listRemove ys x).map (fun l => y :: l)

/-! ### Relation mutator (`_add_to_relation`, `_remove_from_relation`,
`_update_relations`) -/

/-- Resolution of one `add` entry, as in `_add_to_relation`: if the dictionary
contains the key `id`, `submodel.get_by(id=...)` — which yields `none` when no
such row exists, with no existence check in the code — otherwise
`submodel.get_or_create(**dictionary)[0]`. -/
def addEntryResolve (db : DB) (e : Entry) : DB × Option Nat :=
  match e.eid with
  | some i => (db, (getSubById db.subinsts i).map (fun s => s.id))
  | none =>
      let r := getOrCreate db e.attrs
      (r.1, some r.2)

/-- `for instance in query: getattr(instance, relationname).append(subinst)`:
append the resolved reference (possibly the `None` of a failed `get_by`) to
the relation on every instance selected by the query. -/
def addRefToTargets (db : DB) (qids : List Nat) (relname : String) (ref : Option Nat) : DB :=
  { db with insts := db.insts.map (fun inst =>
      if qids.contains inst.id then appendRel inst relname ref else inst) }

/-- `API._add_to_relation`: resolve each `add` entry and append the result to
the relation on every queried instance.  The code performs no existence
check, so this operation cannot fail. -/
def addToRelation (db : DB) (qids : List Nat) (relname : String) : List Entry → DB
  | [] => db
  | e :: rest =>
      let r := addEntryResolve db e
      addToRelation (addRefToTargets r.1 qids relname r.2) qids relname rest

/-- `getattr(instance, relationname).remove(subinst)` applied to each queried
instance in turn; Python's `list.remove` raises `ValueError` when the value is
absent, which propagates out of the view unhandled. -/
def removeRefFromInsts (qids : List Nat) (relname : String) (ref : Option Nat) :
    List Inst → Except String (List Inst)
  | [] => Except.ok []
  | inst :: rest =>
      if qids.contains inst.id then
        match listRemove (getRel inst relname) ref with
        | some l =>
            (removeRefFromInsts qids relname ref rest).map
              (fun r => setRel inst relname l :: r)
        | none => Except.error "ValueError"
      else (removeRefFromInsts qids relname ref rest).map (fun r => inst :: r)

/-- The removal loop of `_remove_from_relation` over the whole database
state. -/
def removeRefFromTargets (db : DB) (qids : List Nat) (relname : String)
    (ref : Option Nat) : Except String DB :=
  (removeRefFromInsts qids relname ref db.insts).map (fun l => { db with insts := l })

/-- Resolution of one `remove` entry, as in `_remove_from_relation`: by `id`
via `get_by(id=...)` if the dictionary has an `id` key, else `get_by(**attrs)`
on the remaining attributes; either yields `none` when nothing matches. -/
def removeEntryResolve (db : DB) (e : Entry) : Option Nat :=
  match e.eid with
  | some i => (getSubById db.subinsts i).map (fun s => s.id)
  | none => (getSubBy db.subinsts e.attrs).map (fun s => s.id)

/-- `API._remove_from_relation`: for each entry, pop the `__delete__` flag,
resolve the related instance (with no not-found handling), remove the resolved
reference from the relation on every queried instance, and delete the related
row afterwards when the flag was set.  `subinst.delete()` on the `None` of a
failed lookup raises `AttributeError`. -/
def removeFromRelation (db : DB) (qids : List Nat) (relname : String) :
    List Entry → Except String DB
  | [] => Except.ok db
  | e :: rest =>
      let ref := removeEntryResolve db e
      match removeRefFromTargets db qids relname ref with
      | Except.error m => Except.error m
      | Except.ok db1 =>
          if e.del then
            match ref with
            | some i =>
                removeFromRelation
                  { db1 with subinsts := db1.subinsts.filter (fun s => !(s.id == i)) }
                  qids relname rest
            | none => Except.error "AttributeError"
          else removeFromRelation db1 qids relname rest

/-- The keys of a decoded request body. -/
def bodyKeys (d : RequestData) : List String := d.map Prod.fst

/-- `data[field]`: the value of a body key (first binding). -/
def lookupBody (d : RequestData) (k : String) : Option BodyVal :=
  (d.find? (fun kv => kv.1 == k)).map Prod.snd

/-- `params[columnname]` under a relation key, read as
`{'add': ..., 'remove': ...}` with empty-list defaults; calling `.get` on a
non-dictionary value raises `AttributeError`. -/
def getRelEdit : Option BodyVal → Except String RelEdit
  | some (BodyVal.rel e) => Except.ok e
  | some _ => Except.error "AttributeError"
  | none => Except.error "KeyError"

/-- The loop body of `API._update_relations`: for each relation name in
`tochange`, read its `add`/`remove` lists from the body, then
`_add_to_relation` followed by `_remove_from_relation`. -/
def applyRelationEdits (db : DB) (qids : List Nat) (params : RequestData) :
    List String → Except String DB
  | [] => Except.ok db
  | columnname :: rest =>
      match getRelEdit (lookupBody params columnname) with
      | Except.error m => Except.error m
      | Except.ok edit =>
          match removeFromRelation (addToRelation db qids columnname edit.add)
              qids columnname edit.remove with
          | Except.error m => Except.error m
          | Except.ok db2 => applyRelationEdits db2 qids params rest

/-- `API._update_relations`: `tochange = frozenset(relations) & frozenset(params)`,
then for each relation name in `tochange`, `_add_to_relation` on its `add`
list followed by `_remove_from_relation` on its `remove` list.  Returns the
updated state and `tochange`.  Python iterates the frozenset in an
unspecified order; this embedding fixes the order of the model's relation
list.  Nothing is committed here. -/
def updateRelations (meta : ModelMeta) (db : DB) (qids : List Nat)
    (params : RequestData) : Except String (DB × List String) :=
  let tochange := meta.relations.filter (fun r => (bodyKeys params).contains r)
  match applyRelationEdits db qids params tochange with
  | Except.error m => Except.error m
  | Except.ok db1 => Except.ok (db1, tochange)

/-! ### Field updates (`_strings_to_dates`, `Query.update`) -/

/-- `API._strings_to_dates`: a new dictionary in which the value of every
field for which `is_date_or_datetime` holds is replaced by
`parse_datetime(value)` (the external `dateutil` parser `pd`), all other
values passed through unchanged. -/
def stringsToDates (meta : ModelMeta) (pd : BodyVal → BodyVal)
    (d : List (String × BodyVal)) : List (String × BodyVal) :=
  d.map (fun kv => if meta.dateFields.contains kv.1 then (kv.1, pd kv.2) else kv)

/-- Set one field of an instance's column dictionary. -/
def setField (fields : List (String × BodyVal)) (k : String) (v : BodyVal) :
    List (String × BodyVal) :=
  (k, v) :: fields.filter (fun kv => !(kv.1 == k))

/-- Apply a parameter dictionary to an instance's columns. -/
def applyParams (fields : List (String × BodyVal)) (params : List (String × BodyVal)) :
    List (String × BodyVal) :=
  params.foldl (fun fs kv => setField fs kv.1 kv.2) fields

/-- `query.update(params, False)`: one batch UPDATE over all rows selected by
the query, returning the number of matched rows. -/
def queryUpdate (db : DB) (qids : List Nat) (params : List (String × BodyVal)) :
    DB × Nat :=
  ({ db with insts := db.insts.map (fun inst =>
       if qids.contains inst.id then { inst with fields := applyParams inst.fields params }
       else inst) },
   (db.insts.filter (fun inst => qids.contains inst.id)).length)

/-! ### Transaction boundary (`session.commit` / `session.rollback`) -/

/-- The field-level error messages the validation layer raises for the staged
writes of a transaction (the `errors` attribute of the validation
exception). -/
def validationErrorsOf (validators : String → BodyVal → Option String)
    (pending : List (String × BodyVal)) : List (String × String) :=
  pending.filterMap (fun kv => (validators kv.1 kv.2).map (fun m => (kv.1, m)))

/-- `session.commit()`: the validation layer checks the staged field writes;
if any produces an error the configured validation exception is raised
carrying the per-field messages, otherwise the staged state becomes
durable. -/
def commitSession (validators : String → BodyVal → Option String) (s : Session) :
    Except (List (String × String)) Session :=
  let errs := validationErrorsOf validators s.pending
  if errs.isEmpty then Except.ok ⟨s.staged, s.staged, []⟩
  else Except.error errs

/-- `session.rollback()`: discard every staged change. -/
def rollbackSession (s : Session) : Session := ⟨s.committed, s.committed, []⟩

/-! ### Search (the `search` module is not shipped in `src/`; the parts the
views call are modelled from the spec) -/

/-- A search specification as decoded from the `q` query parameter: equality
filters (field, value) and the `single` flag.  Modelled from the spec, which
describes filters combined by conjunction; only equality filters are needed
here. -/
structure SearchSpec where
  filters : List (String × Value)
  single : Bool
  deriving DecidableEq, Repr

/-- Does an instance satisfy every equality filter? -/
def matchesFilters (inst : Inst) (filters : List (String × Value)) : Bool :=
  filters.all (fun kv => inst.fields.lookup kv.1 == some (BodyVal.scalar kv.2))

/-- The exceptions `_search` catches from the `search` function. -/
inductive SearchExc
  | noResultFound
  | multipleResultsFound
  deriving DecidableEq, Repr

/-- A search result: a bare instance (`single`) or a list of instances. -/
inductive SearchResult
  | one (i : Inst)
  | many (l : List Inst)
  deriving DecidableEq, Repr

/-- Modelled from the spec: `search(model, data)` from `flask_restless.search`
(the module is absent from `src/`; only `views.py` is shipped).  Per the spec,
`single: true` forces exactly one result: zero matches raises `NoResultFound`
and two or more raise `MultipleResultsFound`; with exactly one match that
instance itself is returned.  Without `single` the list of matches is
returned. -/
def searchFn (db : DB) (spec : SearchSpec) : Except SearchExc SearchResult :=
  let ms := db.insts.filter (fun i => matchesFilters i spec.filters)
  if spec.single then
    match ms with
    | [] => Except.error SearchExc.noResultFound
    | [x] => Except.ok (SearchResult.one x)
    | _ :: _ :: _ => Except.error SearchExc.multipleResultsFound
  else Except.ok (SearchResult.many ms)

/-- The `q` request query parameter as the view sees it: absent (defaulting to
`{}`, i.e. the empty specification), malformed JSON, or a decoded
specification. -/
inductive QArg
  | absent
  | malformed
  | spec (s : SearchSpec)

/-- The empty search specification (`json.loads('{}')`). -/
def emptySpec : SearchSpec := ⟨[], false⟩

/-- `API._search` (from `views.py`): decode `q` (malformed JSON yields a 400
"Unable to decode data"), run the search, turn `NoResultFound` /
`MultipleResultsFound` into informational 200 messages, and serialize a list
result as `{"objects": [...]}` or a single result as a bare object. -/
def searchView (db : DB) (q : QArg) : Outcome :=
  match q with
  | QArg.malformed => Outcome.resp 400 (RespBody.message "Unable to decode data")
  | QArg.absent =>
      match searchFn db emptySpec with
      | Except.error SearchExc.noResultFound =>
          Outcome.resp 200 (RespBody.message "No result found")
      | Except.error SearchExc.multipleResultsFound =>
          Outcome.resp 200 (RespBody.message "Multiple results found")
      | Except.ok (SearchResult.many l) => Outcome.resp 200 (RespBody.objects l)
      | Except.ok (SearchResult.one i) => Outcome.resp 200 (RespBody.obj i)
  | QArg.spec s =>
      match searchFn db s with
      | Except.error SearchExc.noResultFound =>
          Outcome.resp 200 (RespBody.message "No result found")
      | Except.error SearchExc.multipleResultsFound =>
          Outcome.resp 200 (RespBody.message "Multiple results found")
      | Except.ok (SearchResult.many l) => Outcome.resp 200 (RespBody.objects l)
      | Except.ok (SearchResult.one i) => Outcome.resp 200 (RespBody.obj i)

/-- Modelled from the spec: the equality filters of a search specification
carried inside a patch body (for `create_query`), read from a `filters` key
holding a list of `{"name": ..., "val": ...}` dictionaries; a body without a
search specification yields no filters. -/
def extractFilters (data : RequestData) : List (String × Value) :=
  match lookupBody data "filters" with
  | some (BodyVal.rlist entries) =>
      entries.filterMap (fun e =>
        match e.lookup "name", e.lookup "val" with
        | some (Value.vstr n), some v => some (n, v)
        | _, _ => none)
  | _ => []

/-- Modelled from the spec: `create_query(model, data)` from
`flask_restless.search` (absent from `src/`) builds the bulk-update target
query from the search specification in the decoded body; with no
specification present the query targets all instances. -/
def createQuery (db : DB) (data : RequestData) : List Nat :=
  ((db.insts.filter (fun i => matchesFilters i (extractFilters data))).map (fun i => i.id))

/-! ### The `API` view methods -/

/-- `API._check_authentication`: `True` exactly when the view must abort with
401, i.e. the request method is in `authentication_required_for` and the
authentication predicate, invoked with no arguments, returns `False`. -/
def checkAuthenticationFails (cfg : ApiConfig) (m : Method) : Bool :=
  cfg.authRequiredFor.contains m && !(cfg.authFn ())

/-- `API.get`: authentication check; with no id, delegate to `_search`; with
an id, `get_by(id=instid)` and abort 404 when absent, else serialize the
instance. -/
def getView (cfg : ApiConfig) (db : DB) (instid : Option Nat) (q : QArg) :
    Session × Outcome × List Event :=
  if checkAuthenticationFails cfg Method.GET then
    (initSession db, Outcome.resp 401 RespBody.empty, [Event.authCheck])
  else
    match instid with
    | none =>
        (initSession db, searchView db q, [Event.authCheck, Event.decode, Event.dbRead])
    | some i =>
        match getById db.insts i with
        | none =>
            (initSession db, Outcome.resp 404 RespBody.empty,
             [Event.authCheck, Event.dbRead])
        | some inst =>
            (initSession db, Outcome.resp 200 (RespBody.obj inst),
             [Event.authCheck, Event.dbRead])

/-- Delete one row (`inst.delete()`): the first row with the given id is
removed from the staged state. -/
def removeFirstInst : List Inst → Nat → List Inst
  | [], _ => []
  | x :: xs, i => if x.id == i then xs else x :: removeFirstInst xs i

/-- `API.delete`: authentication check; `get_by(id=instid)`; when a row
exists, delete it and commit; respond 204 regardless. -/
def deleteView (cfg : ApiConfig) (db : DB) (instid : Nat) :
    Session × Outcome × List Event :=
  if checkAuthenticationFails cfg Method.DELETE then
    (initSession db, Outcome.resp 401 RespBody.empty, [Event.authCheck])
  else
    match getById db.insts instid with
    | none =>
        (initSession db, Outcome.resp 204 RespBody.empty,
         [Event.authCheck, Event.dbRead])
    | some _ =>
        let staged := { db with insts := removeFirstInst db.insts instid }
        match commitSession cfg.validators ⟨db, staged, []⟩ with
        | Except.ok s2 =>
            (s2, Outcome.resp 204 RespBody.empty,
             [Event.authCheck, Event.dbRead, Event.commitEv])
        | Except.error _ =>
            (⟨db, staged, []⟩, Outcome.fault "ValidationError",
             [Event.authCheck, Event.dbRead])

/-- The relation-handling loop of `API.post`: for each relation name present
in the body, each attribute dictionary of its list is passed to
`get_or_create` and the resulting instance appended to the new model's
relation (one level of nesting).  Iterating a non-list value raises an
unhandled `TypeError`. -/
def postRelationsLoop (db : DB) (params : RequestData) (inst : Inst) :
    List String → Except String (DB × Inst)
  | [] => Except.ok (db, inst)
  | col :: rest =>
      match lookupBody params col with
      | some (BodyVal.rlist entries) =>
          let a := entries.foldl (fun (a : DB × Inst) subparams =>
            let r := getOrCreate a.1 subparams
            (r.1, appendRel a.2 col (some r.2))) (db, inst)
          postRelationsLoop a.1 params a.2 rest
      | some _ => Except.error "TypeError"
      | none => Except.error "KeyError"

/-- The plain-column portion of a post body:
`props = set(colkeys).intersection(paramkeys).difference(relations)`, i.e.
the body keys that are non-relation columns (unknown keys silently dropped),
with their values. -/
def postProps (meta : ModelMeta) (params : RequestData) : List (String × BodyVal) :=
  params.filter (fun kv => meta.columns.contains kv.1 && !meta.relations.contains kv.1)

/-- The relation handling of `API.post`, looping over
`set(relations).intersection(paramkeys)` (Python iterates this set in an
unspecified order; this embedding fixes the order of the model's relation
list). -/
def postRelations (meta : ModelMeta) (db : DB) (params : RequestData) (inst : Inst) :
    Except String (DB × Inst) :=
  postRelationsLoop db params inst
    (meta.relations.filter (fun r => (bodyKeys params).contains r))

/-- `API.post`: authentication check; decode the body (malformed JSON yields a
400 "Unable to decode data"); instantiate the model from the body keys that
are non-relation columns (unknown keys silently dropped); attach one level of
related instances via `get_or_create`; `session.add`; `session.commit`.  A
validation exception raised while writing rolls the transaction back and
yields a 400 carrying the exception's per-field `errors`; on success a 201
carries the new instance's id. -/
def postView (cfg : ApiConfig) (db : DB) (body : Option RequestData) :
    Session × Outcome × List Event :=
  if checkAuthenticationFails cfg Method.POST then
    (initSession db, Outcome.resp 401 RespBody.empty, [Event.authCheck])
  else
    match body with
    | none =>
        (initSession db, Outcome.resp 400 (RespBody.message "Unable to decode data"),
         [Event.authCheck, Event.decode])
    | some params =>
        let props := postProps cfg.meta params
        let inst0 : Inst := ⟨db.nextInstId, props, []⟩
        match postRelations cfg.meta db params inst0 with
        | Except.error m =>
            (initSession db, Outcome.fault m, [Event.authCheck, Event.decode])
        | Except.ok (db1, inst1) =>
            let staged := { db1 with insts := db1.insts ++ [inst1],
                                     nextInstId := db1.nextInstId + 1 }
            match commitSession cfg.validators ⟨db, staged, props⟩ with
            | Except.ok s2 =>
                (s2, Outcome.resp 201 (RespBody.created inst1.id),
                 [Event.authCheck, Event.decode, Event.commitEv])
            | Except.error errs =>
                (⟨db, db, []⟩, Outcome.resp 400 (RespBody.validationErrors errs),
                 [Event.authCheck, Event.decode, Event.rollbackEv])

/-- The target query of `API.patch`: with no id, `create_query(model, data)`
over the search specification in the body; with an id,
`model.query.filter_by(id=instid)` followed by
`assert query.count() == 1, 'Multiple rows with same ID'` — a failing
assertion propagates as an unhandled `AssertionError`. -/
def patchQids (db : DB) (instid : Option Nat) (data : RequestData) :
    Except String (List Nat) :=
  match instid with
  | none => Except.ok (createQuery db data)
  | some i =>
      let q := (db.insts.filter (fun inst => inst.id == i)).map (fun inst => inst.id)
      if q.length == 1 then Except.ok q
      else Except.error "AssertionError: Multiple rows with same ID"

/-- The symmetric difference of two key sets
(`field_list = frozenset(data) ^ relations`). -/
def symmDiff (xs ys : List String) : List String :=
  xs.filter (fun x => !ys.contains x) ++ ys.filter (fun y => !xs.contains y)

/-- The plain-field parameter dictionary of `API.patch`:
`field_list = frozenset(data) ^ relations` followed by
`params = dict((field, data[field]) for field in field_list)` and
`params = self._strings_to_dates(params)`. -/
def patchParams (cfg : ApiConfig) (data : RequestData) (touched : List String) :
    List (String × BodyVal) :=
  let fieldList := symmDiff (bodyKeys data) touched
  stringsToDates cfg.meta cfg.parseDatetime
    (fieldList.filterMap (fun f => (lookupBody data f).map (fun v => (f, v))))

/-- `API.patch`: authentication check; decode the body; build the target query
(bulk via `create_query`, single via `filter_by` plus the uniqueness
assertion); apply relation edits via `_update_relations` (outside the
`try`, so an exception there propagates unhandled); the remaining keys form
the parameter dictionary, date fields parsed, applied — when non-empty — by
one `query.update`; commit, rolling back to a 400 with per-field errors on a
validation exception.  Bulk patch responds with `num_modified`; single patch
responds with `self.get(instid)`, re-running the authentication check. -/
def patchView (cfg : ApiConfig) (db : DB) (instid : Option Nat)
    (body : Option RequestData) : Session × Outcome × List Event :=
  if checkAuthenticationFails cfg Method.PATCH then
    (initSession db, Outcome.resp 401 RespBody.empty, [Event.authCheck])
  else
    match body with
    | none =>
        (initSession db, Outcome.resp 400 (RespBody.message "Unable to decode data"),
         [Event.authCheck, Event.decode])
    | some data =>
        match patchQids db instid data with
        | Except.error m =>
            (initSession db, Outcome.fault m, [Event.authCheck, Event.decode, Event.dbRead])
        | Except.ok qids =>
            match updateRelations cfg.meta db qids data with
            | Except.error m =>
                -- an unhandled exception aborts the request; the uncommitted
                -- session state is discarded with it
                (initSession db, Outcome.fault m,
                 [Event.authCheck, Event.decode, Event.dbRead])
            | Except.ok (db1, touched) =>
                let params := patchParams cfg data touched
                let upd := if params.isEmpty then (db1, 0) else queryUpdate db1 qids params
                let updTrace : List Event :=
                  if params.isEmpty then [] else [Event.updateEv params]
                let trace := [Event.authCheck, Event.decode, Event.dbRead]
                  ++ touched.map Event.relEditEv ++ updTrace
                match commitSession cfg.validators ⟨db, upd.1, params⟩ with
                | Except.error errs =>
                    (⟨db, db, []⟩,
                     Outcome.resp 400 (RespBody.validationErrors errs),
                     trace ++ [Event.rollbackEv])
                | Except.ok s3 =>
                    match instid with
                    | none =>
                        (s3, Outcome.resp 200 (RespBody.numModified upd.2),
                         trace ++ [Event.commitEv])
                    | some i =>
                        -- `return self.get(instid)`, which re-runs
                        -- `_check_authentication` (the request method is
                        -- still PATCH) and re-reads the instance
                        if checkAuthenticationFails cfg Method.PATCH then
                          (s3, Outcome.resp 401 RespBody.empty,
                           trace ++ [Event.commitEv, Event.authCheck])
                        else
                          match getById s3.staged.insts i with
                          | none =>
                              (s3, Outcome.resp 404 RespBody.empty,
                               trace ++ [Event.commitEv, Event.authCheck, Event.dbRead])
                          | some inst =>
                              (s3, Outcome.resp 200 (RespBody.obj inst),
                               trace ++ [Event.commitEv, Event.authCheck, Event.dbRead])

/-! ### The function evaluator (`_evaluate_functions`, `FunctionAPI.get`) -/

/-- One aggregate-function request: `{'name': funcname, 'field': fieldname}`. -/
structure FuncSpec where
  name : String
  field : String
  deriving DecidableEq, Repr

/-- The exceptions `_evaluate_functions` can raise: `AttributeError` carrying
the missing field's name, or `OperationalError` carrying the unknown
function's name. -/
inductive EvalExc
  | attributeError (field : String)
  | operationalError (function : String)
  deriving DecidableEq, Repr

/-- The values of one column across all rows of the main model. -/
def columnValues (db : DB) (field : String) : List BodyVal :=
  db.insts.filterMap (fun i => i.fields.lookup field)

/-- `_evaluate_functions(model, functions)`: if the model is absent or the
function list is empty (or missing from the body), return the empty mapping.
Otherwise, for each entry, look up the field on the model — a missing field
raises `AttributeError` carrying the field name — and execute all aggregates
in one query; an unknown SQL function surfaces as `OperationalError` carrying
the function name.  The result maps `'<funcname>__<fieldname>'` to each
evaluation.  The SQL aggregate engine itself is the external parameter
`sqlEval`. -/
def evaluateFunctions (sqlEval : String → List BodyVal → Option Value)
    (model : Option ModelMeta) (db : DB) (functions : Option (List FuncSpec)) :
    Except EvalExc (List (String × Value)) :=
  match model, functions with
  | none, _ => Except.ok []
  | some _, none => Except.ok []
  | some _, some [] => Except.ok []
  | some m, some fs => do
      let pairs ← fs.mapM (fun f =>
        if m.columns.contains f.field then
          Except.ok (f.name ++ "__" ++ f.field, f)
        else Except.error (EvalExc.attributeError f.field))
      pairs.mapM (fun p =>
        match sqlEval p.2.name (columnValues db p.2.field) with
        | some v => Except.ok (p.1, v)
        | none => Except.error (EvalExc.operationalError p.2.name))

/-- `FunctionAPI.get`: decode the body (malformed JSON yields a 400 "Unable to
decode data"); evaluate the requested functions; an empty result yields a 204;
otherwise the mapping is returned with 200; `AttributeError` and
`OperationalError` become 400 messages naming the offender.  The outer
`Option` of `body` is decodability; the inner `Option` is
`data.get('functions')`. -/
def functionGet (sqlEval : String → List BodyVal → Option Value)
    (model : Option ModelMeta) (db : DB)
    (body : Option (Option (List FuncSpec))) : Outcome :=
  match body with
  | none => Outcome.resp 400 (RespBody.message "Unable to decode data")
  | some functions =>
      match evaluateFunctions sqlEval model db functions with
      | Except.ok [] => Outcome.resp 204 RespBody.empty
      | Except.ok r => Outcome.resp 200 (RespBody.funcResults r)
      | Except.error (EvalExc.attributeError f) =>
          Outcome.resp 400 (RespBody.message ("No such field \x22" ++ f ++ "\x22"))
      | Except.error (EvalExc.operationalError fn) =>
          Outcome.resp 400 (RespBody.message ("No such function \x22" ++ fn ++ "\x22"))

/-! ### Event extraction (for stating which relation edits and batch updates
a request performed) -/

/-- The parameter dictionaries of the batch-update events of a trace, in
order. -/
def updateEvents : List Event → List (List (String × BodyVal))
  | [] => []
  | Event.updateEv p :: rest => p :: updateEvents rest
  | Event.authCheck :: rest => updateEvents rest
  | Event.decode :: rest => updateEvents rest
  | Event.dbRead :: rest => updateEvents rest
  | Event.relEditEv _ :: rest => updateEvents rest
  | Event.commitEv :: rest => updateEvents rest
  | Event.rollbackEv :: rest => updateEvents rest

/-- The relation names of the relation-edit events of a trace, in order. -/
def relEvents : List Event → List String
  | [] => []
  | Event.relEditEv r :: rest => r :: relEvents rest
  | Event.authCheck :: rest => relEvents rest
  | Event.decode :: rest => relEvents rest
  | Event.dbRead :: rest => relEvents rest
  | Event.updateEv _ :: rest => relEvents rest
  | Event.commitEv :: rest => relEvents rest
  | Event.rollbackEv :: rest => relEvents rest

/-! ### Concrete data used by the witnesses -/

/-- A small model: two plain columns, one relation, no date fields. -/
def metaW : ModelMeta := ⟨["name", "age", "computers"], ["computers"], []⟩

/-- A model with a date column. -/
def metaD : ModelMeta := ⟨["name", "bday", "computers"], ["computers"], ["bday"]⟩

/-- A permissive configuration: no authentication required, no validators. -/
def cfgW : ApiConfig :=
  ⟨metaW, [], fun _ => true, fun _ _ => none, id⟩

/-- A configuration requiring authentication for every method, with a
predicate that denies. -/
def cfgAuth : ApiConfig :=
  ⟨metaW, [Method.GET, Method.POST, Method.PATCH, Method.DELETE],
   fun _ => false, fun _ _ => none, id⟩

/-- A configuration whose validation layer rejects every write to `age`. -/
def cfgVal : ApiConfig :=
  ⟨metaW, [], fun _ => true,
   fun f _ => if f == "age" then some "not numeric" else none, id⟩

/-- A configuration with a date column and a marker parse function. -/
def cfgDate : ApiConfig :=
  ⟨metaD, [], fun _ => true, fun _ _ => none,
   fun _ => BodyVal.scalar (Value.vdate "parsed")⟩

/-- One row named Mary with id 1, no related rows. -/
def dbW : DB :=
  ⟨[⟨1, [("name", BodyVal.scalar (Value.vstr "Mary"))], []⟩], [], 2, 1⟩

/-- The row of `dbW`. -/
def instW : Inst := ⟨1, [("name", BodyVal.scalar (Value.vstr "Mary"))], []⟩

/-- A relation-edit body adding the (non-existent) related id 7. -/
def bodyRelAdd : RequestData :=
  [("computers", BodyVal.rel ⟨[⟨some 7, [], false⟩], []⟩)]

/-- `dbW` after the broken add: a null reference sits in the relation. -/
def db1W : DB :=
  ⟨[⟨1, [("name", BodyVal.scalar (Value.vstr "Mary"))], [("computers", [none])]⟩],
   [], 2, 1⟩

/-- A patch body mixing a date field, a plain field and a relation key. -/
def dataC4 : RequestData :=
  [("bday", BodyVal.scalar (Value.vstr "2020-01-01")),
   ("name", BodyVal.scalar (Value.vstr "Z")),
   ("computers", BodyVal.rel ⟨[], []⟩)]

/-- A body writing a value the validation layer of `cfgVal` rejects. -/
def ageBody : RequestData := [("age", BodyVal.scalar (Value.vint 200))]

/-! ## Helper lemmas -/

theorem contains_iff_mem (l : List String) (a : String) : l.contains a = true ↔ a ∈ l :=
  List.elem_iff

theorem validationErrorsOf_nil (v : String → BodyVal → Option String) :
    validationErrorsOf v [] = [] := rfl

theorem commitSession_ok (v : String → BodyVal → Option String) (c st : DB)
    (p : List (String × BodyVal)) (h : validationErrorsOf v p = []) :
    commitSession v ⟨c, st, p⟩ = Except.ok ⟨st, st, []⟩ := by
  simp [commitSession, h]

theorem commitSession_error (v : String → BodyVal → Option String) (c st : DB)
    (p : List (String × BodyVal)) (h : validationErrorsOf v p ≠ []) :
    commitSession v ⟨c, st, p⟩ = Except.error (validationErrorsOf v p) := by
  simp only [commitSession]
  rw [if_neg]
  simpa [List.isEmpty_iff] using h

theorem updateRelations_ok_iff (meta : ModelMeta) (db : DB) (qids : List Nat)
    (params : RequestData) (db1 : DB) (t : List String) :
    updateRelations meta db qids params = Except.ok (db1, t) ↔
      (applyRelationEdits db qids params
          (meta.relations.filter (fun r => (bodyKeys params).contains r))
        = Except.ok db1
      ∧ t = meta.relations.filter (fun r => (bodyKeys params).contains r)) := by
  simp only [updateRelations]
  cases hf : applyRelationEdits db qids params
      (meta.relations.filter (fun r => (bodyKeys params).contains r)) with
  | error e => simp
  | ok d =>
      constructor
      · intro h
        injection h with h2
        injection h2 with ha hb
        exact ⟨by rw [ha], hb.symm⟩
      · rintro ⟨h1, h2⟩
        injection h1 with h1
        rw [h1, h2]

theorem updateRelations_touched (meta : ModelMeta) (db : DB) (qids : List Nat)
    (params : RequestData) (db1 : DB) (t : List String)
    (h : updateRelations meta db qids params = Except.ok (db1, t)) :
    t = meta.relations.filter (fun r => (bodyKeys params).contains r) :=
  ((updateRelations_ok_iff meta db qids params db1 t).mp h).2

theorem removeFirstInst_of_not_mem (xs : List Inst) (i : Nat)
    (h : ∀ x ∈ xs, (x.id == i) = false) : removeFirstInst xs i = xs := by
  induction xs with
  | nil => rfl
  | cons x tl ih =>
      rw [removeFirstInst, if_neg (by simpa using h x (by simp)),
        ih (fun y hy => h y (by simp [hy]))]

theorem removeFirstInst_eq_filter (xs : List Inst) (i : Nat)
    (hnd : (xs.map (fun x => x.id)).Nodup) :
    removeFirstInst xs i = xs.filter (fun x => !(x.id == i)) := by
  induction xs with
  | nil => rfl
  | cons x tl ih =>
      rw [List.map_cons, List.nodup_cons] at hnd
      by_cases hx : x.id = i
      · rw [removeFirstInst, if_pos (by simpa using hx), List.filter_cons,
          if_neg (by simp [hx])]
        refine (List.filter_eq_self.mpr ?_).symm
        intro y hy
        have hne : y.id ≠ i := by
          intro he
          have hyx : y.id = x.id := by rw [he, hx]
          exact hnd.1 (hyx ▸ List.mem_map_of_mem (fun z => z.id) hy)
        simpa using hne
      · rw [removeFirstInst, if_neg (by simpa using hx), List.filter_cons,
          if_pos (by simpa using hx), ih hnd.2]

theorem getById_filter_ne (xs : List Inst) (i : Nat) :
    getById (xs.filter (fun x => !(x.id == i))) i = none := by
  rw [getById, List.find?_eq_none]
  intro x hx
  rw [List.mem_filter] at hx
  simpa using hx.2

/-! ## Claim theorems -/

/-- Claim C2: for every search specification with `single` set, exactly one
match returns that instance, zero matches yields the informational 200
message "No result found", two or more matches yields the informational 200
message "Multiple results found", and the search view never propagates a
fault. -/
theorem single_search_messages (db : DB) (spec : SearchSpec)
    (hs : spec.single = true) :
    (db.insts.filter (fun i => matchesFilters i spec.filters) = [] →
       searchView db (QArg.spec spec)
         = Outcome.resp 200 (RespBody.message "No result found"))
    ∧ (∀ x, db.insts.filter (fun i => matchesFilters i spec.filters) = [x] →
       searchView db (QArg.spec spec) = Outcome.resp 200 (RespBody.obj x))
    ∧ (2 ≤ (db.insts.filter (fun i => matchesFilters i spec.filters)).length →
       searchView db (QArg.spec spec)
         = Outcome.resp 200 (RespBody.message "Multiple results found"))
    ∧ (∀ m, searchView db (QArg.spec spec) ≠ Outcome.fault m) := by
  refine ⟨?_, ?_, ?_, ?_⟩
  · intro h
    simp [searchView, searchFn, hs, h]
  · intro x h
    simp [searchView, searchFn, hs, h]
  · intro h
    rcases hl : db.insts.filter (fun i => matchesFilters i spec.filters) with
      _ | ⟨x, _ | ⟨y, tl⟩⟩
    · rw [hl] at h; simp at h
    · rw [hl] at h; simp at h
    · simp [searchView, searchFn, hs, hl]
  · intro m
    rcases hl : db.insts.filter (fun i => matchesFilters i spec.filters) with
      _ | ⟨x, _ | ⟨y, tl⟩⟩ <;> simp [searchView, searchFn, hs, hl]

/-- Claim C5: a direct fetch of an absent id responds 404, whereas a `single`
search with no match responds 200 with the informational message "No result
found" — the intentional asymmetry between the two not-found outcomes. -/
theorem not_found_asymmetry (cfg : ApiConfig) (db : DB)
    (hauth : checkAuthenticationFails cfg Method.GET = false) :
    (∀ i q, getById db.insts i = none →
       (getView cfg db (some i) q).2.1 = Outcome.resp 404 RespBody.empty)
    ∧ (∀ spec, spec.single = true →
       db.insts.filter (fun j => matchesFilters j spec.filters) = [] →
       (getView cfg db none (QArg.spec spec)).2.1
         = Outcome.resp 200 (RespBody.message "No result found")) := by
  constructor
  · intro i q h
    simp [getView, hauth, h]
  · intro spec h1 h2
    simp [getView, hauth, searchView, searchFn, h1, h2]

/-- Claim C6: `delete(id)` is idempotent — the first call deletes the row if
present (the committed state is the original one with every row of that id
removed) and responds 204; a second call also responds 204 and leaves the
committed state unchanged. -/
theorem delete_idempotent (cfg : ApiConfig) (db : DB) (i : Nat)
    (hauth : checkAuthenticationFails cfg Method.DELETE = false)
    (hnd : (db.insts.map (fun x => x.id)).Nodup) :
    (deleteView cfg db i).2.1 = Outcome.resp 204 RespBody.empty
    ∧ (deleteView cfg db i).1.committed.insts
        = db.insts.filter (fun x => !(x.id == i))
    ∧ (deleteView cfg ((deleteView cfg db i).1.committed) i).2.1
        = Outcome.resp 204 RespBody.empty
    ∧ (deleteView cfg ((deleteView cfg db i).1.committed) i).1.committed
        = (deleteView cfg db i).1.committed := by
  cases hget : getById db.insts i with
  | none =>
      have hall : ∀ x ∈ db.insts, (x.id == i) = false := by
        intro x hx
        have := List.find?_eq_none.mp hget x hx
        simpa using this
      have hfilter : db.insts.filter (fun x => !(x.id == i)) = db.insts :=
        List.filter_eq_self.mpr (fun x hx => by simp [hall x hx])
      have h1 : deleteView cfg db i
          = (initSession db, Outcome.resp 204 RespBody.empty,
             [Event.authCheck, Event.dbRead]) := by
        simp [deleteView, hauth, hget]
      refine ⟨by rw [h1], by rw [h1]; exact hfilter.symm, ?_, ?_⟩ <;> rw [h1] <;>
        simp [deleteView, hauth, hget, initSession]
  | some inst =>
      have h1 : deleteView cfg db i
          = (⟨{ db with insts := removeFirstInst db.insts i },
              { db with insts := removeFirstInst db.insts i }, []⟩,
             Outcome.resp 204 RespBody.empty,
             [Event.authCheck, Event.dbRead, Event.commitEv]) := by
        simp [deleteView, hauth, hget, commitSession, validationErrorsOf]
      have hfe : removeFirstInst db.insts i
          = db.insts.filter (fun x => !(x.id == i)) :=
        removeFirstInst_eq_filter db.insts i hnd
      have hget2 : getById (removeFirstInst db.insts i) i = none := by
        rw [hfe]; exact getById_filter_ne db.insts i
      refine ⟨by rw [h1], by rw [h1, hfe], ?_, ?_⟩ <;> rw [h1] <;>
        simp [deleteView, hauth, hget2, initSession]

/-- Claim C7: when the request method is in `authentication_required_for` and
the authentication predicate (invoked with no arguments) returns false, every
view aborts with 401 immediately: the session is untouched and the event
trace is exactly the authentication check — no decoding and no persistence
work happens at all, in particular none before the check. -/
theorem auth_gate_short_circuits (cfg : ApiConfig) (db : DB)
    (hfn : cfg.authFn () = false) :
    (∀ instid q, cfg.authRequiredFor.contains Method.GET = true →
       getView cfg db instid q
         = (initSession db, Outcome.resp 401 RespBody.empty, [Event.authCheck]))
    ∧ (∀ body, cfg.authRequiredFor.contains Method.POST = true →
       postView cfg db body
         = (initSession db, Outcome.resp 401 RespBody.empty, [Event.authCheck]))
    ∧ (∀ instid body, cfg.authRequiredFor.contains Method.PATCH = true →
       patchView cfg db instid body
         = (initSession db, Outcome.resp 401 RespBody.empty, [Event.authCheck]))
    ∧ (∀ instid, cfg.authRequiredFor.contains Method.DELETE = true →
       deleteView cfg db instid
         = (initSession db, Outcome.resp 401 RespBody.empty, [Event.authCheck])) := by
  have hc : ∀ m, cfg.authRequiredFor.contains m = true →
      checkAuthenticationFails cfg m = true := by
    intro m hm
    have hmem : m ∈ cfg.authRequiredFor := List.mem_of_elem_eq_true hm
    simp [checkAuthenticationFails, hmem, hfn]
  refine ⟨?_, ?_, ?_, ?_⟩
  · intro instid q h
    simp [getView, hc Method.GET h]
  · intro body h
    simp [postView, hc Method.POST h]
  · intro instid body h
    simp [patchView, hc Method.PATCH h]
  · intro instid h
    simp [deleteView, hc Method.DELETE h]

/-- Claim C8: with an absent model or an empty (or missing) function list,
`_evaluate_functions` returns the empty mapping and `FunctionAPI.get`
responds 204 — a success status, not an error. -/
theorem evaluate_functions_empty (sqlEval : String → List BodyVal → Option Value)
    (model : Option ModelMeta) (db : DB) (functions : Option (List FuncSpec))
    (h : model = none ∨ functions = none ∨ functions = some []) :
    evaluateFunctions sqlEval model db functions = Except.ok []
    ∧ functionGet sqlEval model db (some functions) = Outcome.resp 204 RespBody.empty
    ∧ 204 < 400 := by
  rcases h with h | h | h
  · subst h
    cases functions with
    | none => exact ⟨rfl, rfl, by norm_num⟩
    | some fs => cases fs <;> exact ⟨rfl, rfl, by norm_num⟩
  · subst h
    cases model with
    | none => exact ⟨rfl, rfl, by norm_num⟩
    | some m => exact ⟨rfl, rfl, by norm_num⟩
  · subst h
    cases model with
    | none => exact ⟨rfl, rfl, by norm_num⟩
    | some m => exact ⟨rfl, rfl, by norm_num⟩

/-- Claim C9: a patch naming an id that matches no row trips the
`assert query.count() == 1` and propagates an unhandled `AssertionError`; it
never produces a client-facing response of any status (in particular not a
404). -/
theorem patch_absent_id_assertion_fault (cfg : ApiConfig) (db : DB) (i : Nat)
    (data : RequestData)
    (hauth : checkAuthenticationFails cfg Method.PATCH = false)
    (habs : (db.insts.filter (fun inst => inst.id == i)).length = 0) :
    patchView cfg db (some i) (some data)
      = (initSession db, Outcome.fault "AssertionError: Multiple rows with same ID",
         [Event.authCheck, Event.decode, Event.dbRead])
    ∧ ∀ st b, (patchView cfg db (some i) (some data)).2.1 ≠ Outcome.resp st b := by
  have hq : patchQids db (some i) data
      = Except.error "AssertionError: Multiple rows with same ID" := by
    simp [patchQids, List.length_map, habs]
  have hmain : patchView cfg db (some i) (some data)
      = (initSession db, Outcome.fault "AssertionError: Multiple rows with same ID",
         [Event.authCheck, Event.decode, Event.dbRead]) := by
    simp [patchView, hauth, hq]
  exact ⟨hmain, by intro st b; rw [hmain]; simp⟩

theorem updateEvents_append (l1 l2 : List Event) :
    updateEvents (l1 ++ l2) = updateEvents l1 ++ updateEvents l2 := by
  induction l1 with
  | nil => rfl
  | cons e rest ih => cases e <;> simp [updateEvents, ih]

theorem relEvents_append (l1 l2 : List Event) :
    relEvents (l1 ++ l2) = relEvents l1 ++ relEvents l2 := by
  induction l1 with
  | nil => rfl
  | cons e rest ih => cases e <;> simp [relEvents, ih]

theorem updateEvents_map_relEditEv (l : List String) :
    updateEvents (l.map Event.relEditEv) = [] := by
  induction l with
  | nil => rfl
  | cons r rest ih => simp [updateEvents, ih]

theorem relEvents_map_relEditEv (l : List String) :
    relEvents (l.map Event.relEditEv) = l := by
  induction l with
  | nil => rfl
  | cons r rest ih => simp [relEvents, ih]

theorem lookupBody_cons_ne (k : String) (v : BodyVal) (tl : RequestData)
    (f : String) (hne : f ≠ k) :
    lookupBody ((k, v) :: tl) f = lookupBody tl f := by
  simp [lookupBody, List.find?_cons, Ne.symm hne]

theorem filterMap_lookup_filter (data : RequestData) (p : String → Bool)
    (hnd : (bodyKeys data).Nodup) :
    ((bodyKeys data).filter p).filterMap
        (fun f => (lookupBody data f).map (fun v => (f, v)))
      = data.filter (fun kv => p kv.1) := by
  induction data with
  | nil => rfl
  | cons kv tl ih =>
      obtain ⟨k, v⟩ := kv
      have hkeys : bodyKeys ((k, v) :: tl) = k :: bodyKeys tl := rfl
      rw [hkeys, List.nodup_cons] at hnd
      have hcongr : ((bodyKeys tl).filter p).filterMap
            (fun f => (lookupBody ((k, v) :: tl) f).map (fun v2 => (f, v2)))
          = ((bodyKeys tl).filter p).filterMap
            (fun f => (lookupBody tl f).map (fun v2 => (f, v2))) := by
        apply List.filterMap_congr
        intro f hf
        have hmem : f ∈ bodyKeys tl := (List.mem_filter.mp hf).1
        have hne : f ≠ k := fun he => hnd.1 (he ▸ hmem)
        rw [lookupBody_cons_ne k v tl f hne]
      have hself : lookupBody ((k, v) :: tl) k = some v := by
        simp [lookupBody, List.find?_cons]
      rw [hkeys]
      by_cases hp : p k = true
      · have hfk : Option.map (fun v2 => (k, v2)) (lookupBody ((k, v) :: tl) k)
            = some (k, v) := by rw [hself]; rfl
        rw [List.filter_cons_of_pos hp,
          @List.filterMap_cons_some _ _
            (fun f => Option.map (fun v => (f, v)) (lookupBody ((k, v) :: tl) f))
            k (List.filter p (bodyKeys tl)) (k, v) hfk, hcongr,
          ih hnd.2,
          show List.filter (fun kv : String × BodyVal => p kv.1) ((k, v) :: tl)
              = (k, v) :: List.filter (fun kv : String × BodyVal => p kv.1) tl from
            List.filter_cons_of_pos hp]
      · rw [List.filter_cons_of_neg hp, hcongr, ih hnd.2,
          show List.filter (fun kv : String × BodyVal => p kv.1) ((k, v) :: tl)
              = List.filter (fun kv : String × BodyVal => p kv.1) tl from
            List.filter_cons_of_neg hp]

theorem symmDiff_touched (data : RequestData) (rels : List String) :
    symmDiff (bodyKeys data) (rels.filter (fun r => (bodyKeys data).contains r))
      = (bodyKeys data).filter (fun k => !rels.contains k) := by
  unfold symmDiff
  have h2 : (rels.filter (fun r => (bodyKeys data).contains r)).filter
      (fun y => !(bodyKeys data).contains y) = [] := by
    rw [List.filter_eq_nil_iff]
    intro r hr
    rw [List.mem_filter] at hr
    have hm := List.mem_of_elem_eq_true hr.2
    simp [hm]
  rw [h2, List.append_nil]
  apply List.filter_congr
  intro k hk
  by_cases hkrel : k ∈ rels
  · have hkt : k ∈ rels.filter (fun r => (bodyKeys data).contains r) :=
      List.mem_filter.mpr ⟨hkrel, by simpa using hk⟩
    simp [hkt, hkrel, hk]
  · have hkt : k ∉ rels.filter (fun r => (bodyKeys data).contains r) :=
      fun hmem => hkrel (List.mem_filter.mp hmem).1
    simp [hkt, hkrel, hk]

theorem patchParams_partition (cfg : ApiConfig) (data : RequestData)
    (hnd : (bodyKeys data).Nodup) :
    patchParams cfg data
        (cfg.meta.relations.filter (fun r => (bodyKeys data).contains r))
      = stringsToDates cfg.meta cfg.parseDatetime
          (data.filter (fun kv => !cfg.meta.relations.contains kv.1)) := by
  simp only [patchParams]
  rw [symmDiff_touched data cfg.meta.relations,
    filterMap_lookup_filter data _ hnd]

theorem patchParams_nil_of_all_relations (cfg : ApiConfig) (data : RequestData)
    (hnd : (bodyKeys data).Nodup)
    (hkeys : ∀ k ∈ bodyKeys data, cfg.meta.relations.contains k = true) :
    patchParams cfg data
        (cfg.meta.relations.filter (fun r => (bodyKeys data).contains r)) = [] := by
  rw [patchParams_partition cfg data hnd]
  have hfil : data.filter (fun kv => !cfg.meta.relations.contains kv.1) = [] := by
    rw [List.filter_eq_nil_iff]
    intro kv hkv
    have hc := hkeys kv.1 (List.mem_map_of_mem Prod.fst hkv)
    have hm := List.mem_of_elem_eq_true hc
    simp [hm]
  rw [hfil]
  rfl

/-- Claim C1 (counterexample): a relation-edit patch whose `add` entry names
id 7, while no related instance with id 7 exists, does not fail with a
"not found" error — the request succeeds with a 200 response and the edit
proceeds, committing a null reference into the relation. -/
theorem relation_add_absent_id_proceeds :
    (patchView cfgW dbW (some 1)
        (some [("computers", BodyVal.rel ⟨[⟨some 7, [], false⟩], []⟩)])).2.1
      = Outcome.resp 200
          (RespBody.obj ⟨1, [("name", BodyVal.scalar (Value.vstr "Mary"))],
            [("computers", [none])]⟩)
    ∧ (patchView cfgW dbW (some 1)
        (some [("computers", BodyVal.rel ⟨[⟨some 7, [], false⟩], []⟩)])).1.committed.insts
      = [⟨1, [("name", BodyVal.scalar (Value.vstr "Mary"))], [("computers", [none])]⟩] := by
  constructor <;> rfl

/-- Claim C1 (amended): the relation mutator performs no existence check.  An
`add` entry whose id names no existing related instance proceeds: the null
result of the lookup is appended to the relation on the target, and no error
of any kind is raised.  A `remove` entry whose id names no existing related
instance does not produce a "not found" error either: the code attempts to
remove the null lookup result from the relation list, which raises an
unhandled `ValueError` when the relation holds no null reference. -/
theorem relation_edit_no_not_found (db : DB) (t : Inst) (relname : String)
    (i : Nat) (attrs : List (String × Value))
    (hdb : db.insts = [t])
    (hlook : getSubById db.subinsts i = none)
    (hnone : listRemove (getRel t relname) none = none) :
    addToRelation db [t.id] relname [⟨some i, attrs, false⟩]
      = { db with insts := [appendRel t relname none] }
    ∧ removeFromRelation db [t.id] relname [⟨some i, attrs, false⟩]
      = Except.error "ValueError" := by
  constructor
  · simp [addToRelation, addEntryResolve, hlook, addRefToTargets, hdb]
  · simp [removeFromRelation, removeEntryResolve, hlook, removeRefFromTargets,
      hdb, removeRefFromInsts, hnone, Except.map]

/-- Claim C10: a bulk patch whose body holds only relation-edit keys still
applies and commits the relation edits, but reports a modified count of 0,
because `num_modified` counts only the rows touched by the plain-field batch
update, which never runs for an empty parameter dictionary. -/
theorem bulk_patch_relations_only (cfg : ApiConfig) (db db1 : DB)
    (data : RequestData) (touched : List String)
    (hauth : checkAuthenticationFails cfg Method.PATCH = false)
    (hnd : (bodyKeys data).Nodup)
    (hu : updateRelations cfg.meta db (createQuery db data) data
        = Except.ok (db1, touched))
    (hkeys : ∀ k ∈ bodyKeys data, cfg.meta.relations.contains k = true) :
    patchView cfg db none (some data)
      = (⟨db1, db1, []⟩, Outcome.resp 200 (RespBody.numModified 0),
         [Event.authCheck, Event.decode, Event.dbRead]
           ++ touched.map Event.relEditEv ++ [Event.commitEv]) := by
  have ht : touched = cfg.meta.relations.filter (fun r => (bodyKeys data).contains r) :=
    updateRelations_touched cfg.meta db (createQuery db data) data db1 touched hu
  have hps : patchParams cfg data touched = [] := by
    rw [ht]; exact patchParams_nil_of_all_relations cfg data hnd hkeys
  have hqids : patchQids db none data = Except.ok (createQuery db data) := rfl
  simp [patchView, hauth, hqids, hu, hps, commitSession, validationErrorsOf]

/-- Claim C3: when the validation layer raises one of the configured
validation exceptions during the write phase of a post or a patch, the
transaction is rolled back — the committed and staged states both revert to
the pre-request database, discarding any staged relation edits — and the
response is a 400 carrying the exception's per-field error messages verbatim
under `validation_errors`. -/
theorem validation_failure_rolls_back (cfg : ApiConfig) (db : DB) :
    (∀ (params : RequestData) (db1 : DB) (inst1 : Inst),
       checkAuthenticationFails cfg Method.POST = false →
       postRelations cfg.meta db params
           ⟨db.nextInstId, postProps cfg.meta params, []⟩
         = Except.ok (db1, inst1) →
       validationErrorsOf cfg.validators (postProps cfg.meta params) ≠ [] →
       postView cfg db (some params)
         = (⟨db, db, []⟩,
            Outcome.resp 400 (RespBody.validationErrors
              (validationErrorsOf cfg.validators (postProps cfg.meta params))),
            [Event.authCheck, Event.decode, Event.rollbackEv]))
    ∧ (∀ (instid : Option Nat) (data : RequestData) (qids : List Nat)
         (db1 : DB) (touched : List String),
       checkAuthenticationFails cfg Method.PATCH = false →
       patchQids db instid data = Except.ok qids →
       updateRelations cfg.meta db qids data = Except.ok (db1, touched) →
       validationErrorsOf cfg.validators (patchParams cfg data touched) ≠ [] →
       patchView cfg db instid (some data)
         = (⟨db, db, []⟩,
            Outcome.resp 400 (RespBody.validationErrors
              (validationErrorsOf cfg.validators (patchParams cfg data touched))),
            [Event.authCheck, Event.decode, Event.dbRead]
              ++ touched.map Event.relEditEv
              ++ [Event.updateEv (patchParams cfg data touched), Event.rollbackEv])) := by
  constructor
  · intro params db1 inst1 hauth hrel herrs
    simp [postView, hauth, hrel, commitSession, herrs]
  · intro instid data qids db1 touched hauth hq hu herrs
    have hpne : patchParams cfg data touched ≠ [] := by
      intro h0
      apply herrs
      rw [h0]
      rfl
    have hpie : (patchParams cfg data touched).isEmpty = false := by
      simpa [List.isEmpty_iff] using hpne
    simp [patchView, hauth, hq, hu, hpie, commitSession, herrs]

theorem patchView_trace_shape (cfg : ApiConfig) (db : DB) (instid : Option Nat)
    (data : RequestData) (qids : List Nat) (db1 : DB) (touched : List String)
    (hauth : checkAuthenticationFails cfg Method.PATCH = false)
    (hq : patchQids db instid data = Except.ok qids)
    (hu : updateRelations cfg.meta db qids data = Except.ok (db1, touched)) :
    ∃ suffix : List Event,
      (patchView cfg db instid (some data)).2.2
        = [Event.authCheck, Event.decode, Event.dbRead]
          ++ touched.map Event.relEditEv
          ++ (if (patchParams cfg data touched).isEmpty then []
              else [Event.updateEv (patchParams cfg data touched)])
          ++ suffix
      ∧ relEvents suffix = [] ∧ updateEvents suffix = [] := by
  by_cases hpe : (patchParams cfg data touched).isEmpty = true
  · cases hcs : commitSession cfg.validators ⟨db, db1, patchParams cfg data touched⟩ with
    | error errs =>
        refine ⟨[Event.rollbackEv], ?_, rfl, rfl⟩
        simp [patchView, hauth, hq, hu, hpe, hcs]
    | ok s3 =>
        cases instid with
        | none =>
            refine ⟨[Event.commitEv], ?_, rfl, rfl⟩
            simp [patchView, hauth, hq, hu, hpe, hcs]
        | some i =>
            cases hg : getById s3.staged.insts i with
            | none =>
                refine ⟨[Event.commitEv, Event.authCheck, Event.dbRead], ?_, rfl, rfl⟩
                simp [patchView, hauth, hq, hu, hpe, hcs, hg]
            | some inst =>
                refine ⟨[Event.commitEv, Event.authCheck, Event.dbRead], ?_, rfl, rfl⟩
                simp [patchView, hauth, hq, hu, hpe, hcs, hg]
  · have hpf : (patchParams cfg data touched).isEmpty = false := by
      simpa using hpe
    cases hcs : commitSession cfg.validators
        ⟨db, (queryUpdate db1 qids (patchParams cfg data touched)).1,
         patchParams cfg data touched⟩ with
    | error errs =>
        refine ⟨[Event.rollbackEv], ?_, rfl, rfl⟩
        simp [patchView, hauth, hq, hu, hpf, hcs]
    | ok s3 =>
        cases instid with
        | none =>
            refine ⟨[Event.commitEv], ?_, rfl, rfl⟩
            simp [patchView, hauth, hq, hu, hpf, hcs]
        | some i =>
            cases hg : getById s3.staged.insts i with
            | none =>
                refine ⟨[Event.commitEv, Event.authCheck, Event.dbRead], ?_, rfl, rfl⟩
                simp [patchView, hauth, hq, hu, hpf, hcs, hg]
            | some inst =>
                refine ⟨[Event.commitEv, Event.authCheck, Event.dbRead], ?_, rfl, rfl⟩
                simp [patchView, hauth, hq, hu, hpf, hcs, hg]

/-- Claim C4: on a patch, the body keys naming relations are exactly the ones
handled by the relation-edit path (`touched`, the relation-edit events of the
trace), and exactly the remaining keys form the parameter dictionary of the
single batch update — the trace carries at most one update event, present
exactly when a non-relation key exists, and its dictionary is the body
restricted to non-relation keys with every date-field value passed through the
external datetime parser and every other value unchanged. -/
theorem patch_key_partition (cfg : ApiConfig) (db : DB) (instid : Option Nat)
    (data : RequestData) (qids : List Nat) (db1 : DB) (touched : List String)
    (hauth : checkAuthenticationFails cfg Method.PATCH = false)
    (hnd : (bodyKeys data).Nodup)
    (hq : patchQids db instid data = Except.ok qids)
    (hu : updateRelations cfg.meta db qids data = Except.ok (db1, touched)) :
    touched = cfg.meta.relations.filter (fun r => (bodyKeys data).contains r)
    ∧ patchParams cfg data touched
        = stringsToDates cfg.meta cfg.parseDatetime
            (data.filter (fun kv => !cfg.meta.relations.contains kv.1))
    ∧ relEvents (patchView cfg db instid (some data)).2.2 = touched
    ∧ updateEvents (patchView cfg db instid (some data)).2.2
        = (if (patchParams cfg data touched).isEmpty then []
           else [patchParams cfg data touched]) := by
  have ht : touched = cfg.meta.relations.filter (fun r => (bodyKeys data).contains r) :=
    updateRelations_touched cfg.meta db qids data db1 touched hu
  have hpp : patchParams cfg data touched
      = stringsToDates cfg.meta cfg.parseDatetime
          (data.filter (fun kv => !cfg.meta.relations.contains kv.1)) := by
    rw [ht]
    exact patchParams_partition cfg data hnd
  obtain ⟨suffix, hsuf, hrel0, hupd0⟩ :=
    patchView_trace_shape cfg db instid data qids db1 touched hauth hq hu
  refine ⟨ht, hpp, ?_, ?_⟩
  · rw [hsuf]
    by_cases hpe : (patchParams cfg data touched).isEmpty = true <;>
      simp [hpe, relEvents_append, relEvents_map_relEditEv, hrel0, relEvents]
  · rw [hsuf]
    by_cases hpe : (patchParams cfg data touched).isEmpty = true <;>
      simp [hpe, updateEvents_append, updateEvents_map_relEditEv, hupd0, updateEvents]

/-! ## Witnesses: each theorem with hypotheses evaluated at a concrete input -/

/-- Witness for `relation_edit_no_not_found` at the concrete no-such-id
input. -/
theorem relation_edit_no_not_found_witness :
    addToRelation dbW [1] "computers" [⟨some 7, [], false⟩]
      = { dbW with insts := [appendRel instW "computers" none] }
    ∧ removeFromRelation dbW [1] "computers" [⟨some 7, [], false⟩]
      = Except.error "ValueError" :=
  relation_edit_no_not_found dbW instW "computers" 7 [] rfl rfl rfl

/-- Witness for `single_search_messages`: one match returns the instance. -/
theorem single_search_messages_witness :
    searchView dbW (QArg.spec ⟨[("name", Value.vstr "Mary")], true⟩)
      = Outcome.resp 200 (RespBody.obj instW) :=
  (single_search_messages dbW ⟨[("name", Value.vstr "Mary")], true⟩ rfl).2.1
    instW (by decide)

/-- Witness for `validation_failure_rolls_back` on a concrete rejected post
and a concrete rejected single patch. -/
theorem validation_failure_rolls_back_witness :
    postView cfgVal dbW (some ageBody)
      = (⟨dbW, dbW, []⟩,
         Outcome.resp 400 (RespBody.validationErrors [("age", "not numeric")]),
         [Event.authCheck, Event.decode, Event.rollbackEv])
    ∧ patchView cfgVal dbW (some 1) (some ageBody)
      = (⟨dbW, dbW, []⟩,
         Outcome.resp 400 (RespBody.validationErrors [("age", "not numeric")]),
         [Event.authCheck, Event.decode, Event.dbRead,
          Event.updateEv [("age", BodyVal.scalar (Value.vint 200))],
          Event.rollbackEv]) :=
  ⟨(validation_failure_rolls_back cfgVal dbW).1 ageBody dbW
      ⟨2, [("age", BodyVal.scalar (Value.vint 200))], []⟩ rfl rfl (by decide),
   (validation_failure_rolls_back cfgVal dbW).2 (some 1) ageBody [1] dbW []
      rfl rfl rfl (by decide)⟩

/-- Witness for `patch_key_partition` on a body with a date field, a plain
field and a relation key. -/
theorem patch_key_partition_witness :
    patchParams cfgDate dataC4 ["computers"]
      = [("bday", BodyVal.scalar (Value.vdate "parsed")),
         ("name", BodyVal.scalar (Value.vstr "Z"))]
    ∧ relEvents (patchView cfgDate dbW (some 1) (some dataC4)).2.2 = ["computers"]
    ∧ updateEvents (patchView cfgDate dbW (some 1) (some dataC4)).2.2
        = [[("bday", BodyVal.scalar (Value.vdate "parsed")),
            ("name", BodyVal.scalar (Value.vstr "Z"))]] := by
  obtain ⟨ht, hpp, hrel, hupd⟩ :=
    patch_key_partition cfgDate dbW (some 1) dataC4 [1] dbW ["computers"]
      rfl (by decide) rfl rfl
  refine ⟨?_, hrel, ?_⟩
  · rw [hpp]; rfl
  · rw [hupd]; rfl

/-- Witness for `not_found_asymmetry`: fetch of id 5 is 404, single search
for an absent name is a 200 message. -/
theorem not_found_asymmetry_witness :
    (getView cfgW dbW (some 5) QArg.absent).2.1 = Outcome.resp 404 RespBody.empty
    ∧ (getView cfgW dbW none (QArg.spec ⟨[("name", Value.vstr "Bob")], true⟩)).2.1
        = Outcome.resp 200 (RespBody.message "No result found") :=
  ⟨(not_found_asymmetry cfgW dbW rfl).1 5 QArg.absent rfl,
   (not_found_asymmetry cfgW dbW rfl).2 ⟨[("name", Value.vstr "Bob")], true⟩
      rfl (by decide)⟩

/-- Witness for `delete_idempotent` at id 1 of the one-row database. -/
theorem delete_idempotent_witness :
    (deleteView cfgW dbW 1).2.1 = Outcome.resp 204 RespBody.empty
    ∧ (deleteView cfgW ((deleteView cfgW dbW 1).1.committed) 1).2.1
        = Outcome.resp 204 RespBody.empty
    ∧ (deleteView cfgW ((deleteView cfgW dbW 1).1.committed) 1).1.committed
        = (deleteView cfgW dbW 1).1.committed :=
  ⟨(delete_idempotent cfgW dbW 1 rfl (by decide)).1,
   (delete_idempotent cfgW dbW 1 rfl (by decide)).2.2.1,
   (delete_idempotent cfgW dbW 1 rfl (by decide)).2.2.2⟩

/-- Witness for `auth_gate_short_circuits` under a denying predicate with all
methods gated. -/
theorem auth_gate_short_circuits_witness :
    getView cfgAuth dbW none QArg.absent
      = (initSession dbW, Outcome.resp 401 RespBody.empty, [Event.authCheck])
    ∧ postView cfgAuth dbW none
      = (initSession dbW, Outcome.resp 401 RespBody.empty, [Event.authCheck])
    ∧ patchView cfgAuth dbW none none
      = (initSession dbW, Outcome.resp 401 RespBody.empty, [Event.authCheck])
    ∧ deleteView cfgAuth dbW 1
      = (initSession dbW, Outcome.resp 401 RespBody.empty, [Event.authCheck]) :=
  ⟨(auth_gate_short_circuits cfgAuth dbW rfl).1 none QArg.absent rfl,
   (auth_gate_short_circuits cfgAuth dbW rfl).2.1 none rfl,
   (auth_gate_short_circuits cfgAuth dbW rfl).2.2.1 none none rfl,
   (auth_gate_short_circuits cfgAuth dbW rfl).2.2.2 1 rfl⟩

/-- Witness for `evaluate_functions_empty` with an empty function list. -/
theorem evaluate_functions_empty_witness :
    evaluateFunctions (fun _ _ => some (Value.vint 0)) (some metaW) dbW (some [])
      = Except.ok []
    ∧ functionGet (fun _ _ => some (Value.vint 0)) (some metaW) dbW (some (some []))
      = Outcome.resp 204 RespBody.empty
    ∧ 204 < 400 :=
  evaluate_functions_empty (fun _ _ => some (Value.vint 0)) (some metaW) dbW
    (some []) (Or.inr (Or.inr rfl))

/-- Witness for `patch_absent_id_assertion_fault` at the absent id 99. -/
theorem patch_absent_id_assertion_fault_witness :
    patchView cfgW dbW (some 99)
        (some [("name", BodyVal.scalar (Value.vstr "Bob"))])
      = (initSession dbW,
         Outcome.fault "AssertionError: Multiple rows with same ID",
         [Event.authCheck, Event.decode, Event.dbRead]) :=
  (patch_absent_id_assertion_fault cfgW dbW 99
    [("name", BodyVal.scalar (Value.vstr "Bob"))] rfl (by decide)).1

/-- Witness for `bulk_patch_relations_only` with a body holding only the
relation key. -/
theorem bulk_patch_relations_only_witness :
    patchView cfgW dbW none (some bodyRelAdd)
      = (⟨db1W, db1W, []⟩, Outcome.resp 200 (RespBody.numModified 0),
         [Event.authCheck, Event.decode, Event.dbRead,
          Event.relEditEv "computers", Event.commitEv]) :=
  bulk_patch_relations_only cfgW dbW db1W bodyRelAdd ["computers"]
    rfl (by decide) rfl (by decide)

end FlaskRestless
